import Mathlib

/-!
# Verification of the GitBook MCP proxy core of builders-sodax-mcp-server

Shallow embedding of the proxy subsystem:

* `src/services/gitbookProxy.ts` — the Remote Tool Client / Cache
  (`fetchGitBookTools`, `callGitBookTool`, `checkGitBookHealth`,
  `clearGitBookCache`, globals `cachedTools` / `toolsCacheTime`,
  `TOOLS_CACHE_DURATION`);
* `src/tools/gitbookProxy.ts` — the Schema Translator and Proxy Registrar
  (`convertToZodSchema`, `registerGitBookProxyTools`,
  `registerGitBookMetaTools`, `getGitBookToolNames`, the module-global
  `metaToolsRegistered` guard, and the per-tool / meta tool handlers).

Modelling conventions:

* Network effects are passed in explicitly: each function that performs an
  upstream JSON-RPC request takes the upstream's response as an
  `UpstreamResult` argument (`.ok payload` for a successful round trip,
  `.err msg` for a transport or protocol failure — the thrown exception's
  message).  `initializeConnection` swallows every failure in its own
  `try/catch` ("Some servers don't require initialization, continue
  anyway"), so it is behaviourally a no-op and is not threaded.
* The mutable module state (`cachedTools`, `toolsCacheTime`,
  `metaToolsRegistered`) is passed and returned explicitly
  (`CacheState`, `ProxyGlobals`).
* `Date.now()` is an explicit `now : Nat` parameter (milliseconds).  The
  source reads the clock twice inside one call of `fetchGitBookTools`
  (freshness check and cache stamp); both reads are modelled by the same
  `now`, which is the only simplification and is irrelevant to every claim.
* JavaScript exceptions are `Except String`; a `try { … } catch { … }`
  becomes a `match` on the `Except` value.  A function whose body catches
  everything it could raise gets a non-`Except` return type — that is the
  precise sense in which it "never throws".
-/

/-! ## Data model (`GitBookTool`, `GitBookToolResult` from the service file) -/

/-- A JSON value, as far as argument validation needs to distinguish them.
Numbers are collapsed to `Int`: zod's `z.number()` accepts any JS number and
no claim depends on numeric values. -/
inductive JsonVal where
  | str (s : String)
  | num (n : Int)
  | bool (b : Bool)
  | arr (elems : List JsonVal)
  | obj (fields : List (String × JsonVal))
  | null

/-- One entry of a tool input schema's `properties` record: the source casts
each property to `{ type?: string; description?: string; default?: unknown }`
and never reads `default`, so only the two read fields are modelled. -/
structure PropDef where
  type : Option String
  description : Option String
deriving Repr, DecidableEq

/-- `GitBookTool["inputSchema"]`: `{ type: string; properties?:
Record<string, unknown>; required?: string[] }`.  The `properties` record is
an ordered association list (JS objects preserve insertion order and cannot
contain duplicate keys). -/
structure InputSchema where
  type : String
  properties : Option (List (String × PropDef))
  required : Option (List String)
deriving Repr, DecidableEq

/-- `GitBookTool`: `{ name, description, inputSchema }`. -/
structure GitBookTool where
  name : String
  description : String
  inputSchema : InputSchema
deriving Repr, DecidableEq

/-- One content block of a tool result: `{ type: string; text?: string }`.
The source's index signature `[key: string]: unknown` admits further fields;
they are not modelled (no claim constructs one), but note that the proxy
handler's success-path mapping would drop them. -/
structure ContentBlock where
  type : String
  text : Option String
deriving Repr, DecidableEq

/-- `GitBookToolResult`: `{ content: ContentBlock[]; isError?: boolean }`. -/
structure GitBookToolResult where
  content : List ContentBlock
  isError : Option Bool
deriving Repr, DecidableEq

/-- Outcome of one upstream JSON-RPC round trip, from the caller's point of
view: `.ok` carries `response.data.result`, `.err` carries the message of the
exception raised by the transport or by `sendMcpRequest`'s protocol-error
check (`response.data.error`). -/
inductive UpstreamResult (α : Type) where
  | ok (payload : α)
  | err (msg : String)
deriving Repr, DecidableEq

/-- `sendMcpRequest`: posts the JSON-RPC request and raises on transport or
protocol failure — recorded here as the `Except` image of the round trip. -/
def sendMcpRequest {α : Type} (resp : UpstreamResult α) : Except String α :=
  match resp with
  | .ok payload => .ok payload
  | .err msg => .error msg

/-! ## Remote Tool Cache (`cachedTools`, `toolsCacheTime`, `fetchGitBookTools`,
`clearGitBookCache`) -/

/-- `TOOLS_CACHE_DURATION = 10 * 60 * 1000` (10 minutes, in ms). -/
def TOOLS_CACHE_DURATION : Nat := 10 * 60 * 1000

/-- The module-global cache of `src/services/gitbookProxy.ts`:
`let cachedTools: GitBookTool[] | null = null; let toolsCacheTime = 0`. -/
structure CacheState where
  cachedTools : Option (List GitBookTool)
  toolsCacheTime : Nat
deriving Repr, DecidableEq

/-- The initial module state. -/
def initialCacheState : CacheState := ⟨none, 0⟩

/-- What one call of `fetchGitBookTools` produces: the returned array, the
cache state after the call, and whether an upstream `tools/list` request was
issued. -/
structure FetchOutcome where
  result : List GitBookTool
  state : CacheState
  upstreamCalled : Bool
deriving Repr, DecidableEq

/-- `fetchGitBookTools`.  `listResp` is the upstream response to the
`tools/list` request, with `.ok` carrying the parsed `result.tools` field
(`none` when the field is absent — the source's `result.tools || []`).

The freshness test `cachedTools && Date.now() - toolsCacheTime <
TOOLS_CACHE_DURATION` holds of any non-null cache (a cached empty array is
truthy in JS, hence `isSome`); `Nat` truncated subtraction agrees with the JS
signed subtraction on the comparison's outcome.

The whole body after the freshness test sits in `try { … } catch { … return
cachedTools || []; }`; the only raising step inside the `try` is
`sendMcpRequest` (`initializeConnection` catches its own failures), so the
function as a whole never throws, which the non-`Except` return type
records. -/
def fetchGitBookTools (st : CacheState) (now : Nat)
    (listResp : UpstreamResult (Option (List GitBookTool))) : FetchOutcome :=
  if st.cachedTools.isSome && decide (now - st.toolsCacheTime < TOOLS_CACHE_DURATION) then
    { result := st.cachedTools.getD [], state := st, upstreamCalled := false }
  else
    match sendMcpRequest listResp with
    | .ok tools =>
        let fetched := tools.getD []
        { result := fetched,
          state := { cachedTools := some fetched, toolsCacheTime := now },
          upstreamCalled := true }
    | .error _ =>
        { result := st.cachedTools.getD [], state := st, upstreamCalled := true }

/-- `clearGitBookCache`: `cachedTools = null; toolsCacheTime = 0;` —
unconditionally resets the module cache. -/
def clearGitBookCache (_st : CacheState) : CacheState :=
  { cachedTools := none, toolsCacheTime := 0 }

/-! ## Remote Tool Client (`callGitBookTool`, `checkGitBookHealth`) -/

/-- `callGitBookTool(toolName, args)`: initializes the connection (failure
swallowed), issues `tools/call`, and on any raised failure returns a result
with `isError: true` and a single text block carrying the error message.
`callResp` is the upstream response to the `tools/call` request. -/
def callGitBookTool (toolName : String) (args : List (String × JsonVal))
    (callResp : UpstreamResult GitBookToolResult) : GitBookToolResult :=
  match sendMcpRequest callResp with
  | .ok result => result
  | .error msg =>
      { content := [⟨"text", some ("Error calling GitBook tool: " ++ msg)⟩],
        isError := some true }

/-- The health record returned by `checkGitBookHealth`. -/
structure HealthStatus where
  healthy : Bool
  toolCount : Nat
deriving Repr, DecidableEq

/-- The `try` block of `checkGitBookHealth`: awaits `fetchGitBookTools` and
returns `{ healthy: true, toolCount: tools.length }`.  `fetchGitBookTools`
is total (it catches internally), so this body cannot raise — its `Except`
type records where an exception from the awaited call would surface. -/
def checkGitBookHealthTry (st : CacheState) (now : Nat)
    (listResp : UpstreamResult (Option (List GitBookTool))) :
    Except String (HealthStatus × CacheState) :=
  let o := fetchGitBookTools st now listResp
  .ok (⟨true, o.result.length⟩, o.state)

/-- `checkGitBookHealth`: the `try` body above with
`catch { return { healthy: false, toolCount: 0 } }`. -/
def checkGitBookHealth (st : CacheState) (now : Nat)
    (listResp : UpstreamResult (Option (List GitBookTool))) :
    HealthStatus × CacheState :=
  match checkGitBookHealthTry st now listResp with
  | .ok r => r
  | .error _ => (⟨false, 0⟩, st)

/-! ## Schema Translator (`convertToZodSchema` in `src/tools/gitbookProxy.ts`)

The translator produces a zod object shape.  The zod combinators the source
reaches for are reflected as a closed enumeration of validator kinds plus an
`optional` wrapper flag and the `.describe` annotation. -/

/-- The zod validator kinds `convertToZodSchema` can produce:
`z.string()`, `z.number()`, `z.boolean()`, `z.array(z.unknown())`,
`z.record(z.unknown())`, `z.unknown()`. -/
inductive ZodField where
  | zstring
  | znumber
  | zboolean
  | zarray
  | zrecord
  | zunknown
deriving Repr, DecidableEq

/-- One field validator of the produced shape: the base kind, whether
`.optional()` was applied, and the `.describe(…)` annotation if any. -/
structure FieldSchema where
  kind : ZodField
  optional : Bool
  description : Option String
deriving Repr, DecidableEq

/-- The `switch (propDef.type)` of `convertToZodSchema`: `"string" |
"number" | "integer" | "boolean" | "array" | "object"` map to the five
validator kinds, everything else (including an absent `type`) falls through
to `z.unknown()`. -/
def zodFieldOfType (t : Option String) : ZodField :=
  match t with
  | some "string" => .zstring
  | some "number" => .znumber
  | some "integer" => .znumber
  | some "boolean" => .zboolean
  | some "array" => .zarray
  | some "object" => .zrecord
  | _ => .zunknown

/-- `convertToZodSchema(inputSchema)`.  Returns the shape of the produced
`z.object(shape)` as an ordered association list, mirroring the source's
`for (const [key, prop] of Object.entries(inputSchema.properties))` loop:
empty or missing `properties` short-circuits to `z.object({})`; each field
gets the switched kind, the description when present, and `.optional()`
when the key is not in `required` (`inputSchema.required || []`). -/
def convertToZodSchema (inputSchema : InputSchema) : List (String × FieldSchema) :=
  match inputSchema.properties with
  | none => []
  | some props =>
    if props.length = 0 then []
    else
      let required := inputSchema.required.getD []
      props.foldl (fun shape entry =>
        let key := entry.1
        let propDef := entry.2
        let fieldSchema : FieldSchema :=
          { kind := zodFieldOfType propDef.type,
            optional := !(required.contains key),
            description := propDef.description }
        shape ++ [(key, fieldSchema)]) []

/-! ### zod runtime semantics of the produced shape

Modelled from zod v3, which the registrar hands the shape to (the MCP SDK
rebuilds `z.object(shape)` and parses incoming arguments with it):

* `z.object` runs each field validator on `data[key]`, which is `undefined`
  when the key is absent;
* `z.string() / z.number() / z.boolean() / z.array(…) / z.record(…)` reject
  `undefined` ("Required") and accept exactly their JSON type;
* `z.unknown()` accepts every input **including `undefined`** — a missing
  key passes a `z.unknown()` field even without `.optional()`;
* `.optional()` additionally accepts `undefined`;
* unrecognised extra keys are stripped, never rejected. -/

/-- Does a present value satisfy a validator kind? -/
def matchesKind : ZodField → JsonVal → Bool
  | .zstring, .str _ => true
  | .znumber, .num _ => true
  | .zboolean, .bool _ => true
  | .zarray, .arr _ => true
  | .zrecord, .obj _ => true
  | .zunknown, _ => true
  | _, _ => false

/-- Does a validator kind accept an absent (`undefined`) value on its own,
i.e. without `.optional()`?  Only `z.unknown()` does. -/
def acceptsMissing : ZodField → Bool
  | .zunknown => true
  | _ => false

/-- Run one field validator on the (possibly absent) value at its key. -/
def validateField (fs : FieldSchema) (v : Option JsonVal) : Bool :=
  match v with
  | none => fs.optional || acceptsMissing fs.kind
  | some value => matchesKind fs.kind value

/-- `z.object(shape).safeParse(args).success` for an argument object given
as an association list: every field of the shape must validate against the
value at its key (extra keys are stripped). -/
def validateArgs (shape : List (String × FieldSchema))
    (args : List (String × JsonVal)) : Bool :=
  shape.all (fun entry => validateField entry.2 (args.lookup entry.1))

/-- The Schema Translator as §4.3 of the spec words it, for the refinement
claim: a per-field map over the declared `properties` (empty when absent),
sending each declared type to one of the five kinds — string, number (for
both `"number"` and `"integer"`), boolean, array-of-unknown,
object-of-unknown — and any undeclared or unknown type to the unconstrained
validator, with fields not listed in `required` marked optional. -/
def specSchemaTranslation (inputSchema : InputSchema) : List (String × FieldSchema) :=
  (inputSchema.properties.getD []).map (fun entry =>
    (entry.1,
     { kind :=
         match entry.2.type with
         | some "string" => ZodField.zstring
         | some "number" => ZodField.znumber
         | some "integer" => ZodField.znumber
         | some "boolean" => ZodField.zboolean
         | some "array" => ZodField.zarray
         | some "object" => ZodField.zrecord
         | _ => ZodField.zunknown,
       optional := !((inputSchema.required.getD []).contains entry.1),
       description := entry.2.description }))

/-! ## Proxy Registrar (`registerGitBookProxyTools`, `registerGitBookMetaTools`,
`getGitBookToolNames`, the tool handlers) -/

/-- `JSON.stringify`'s escaping of one character inside a JSON string. -/
def jsonEscapeChar (c : Char) : String :=
  if c = '"' then "\\\""
  else if c = '\\' then "\\\\"
  else if c = '\n' then "\\n"
  else if c = '\r' then "\\r"
  else if c = '\t' then "\\t"
  else if c = Char.ofNat 8 then "\\b"
  else if c = Char.ofNat 12 then "\\f"
  else if c.val < 32 then
    "\\u00" ++ String.singleton (Nat.digitChar (c.val.toNat / 16))
            ++ String.singleton (Nat.digitChar (c.val.toNat % 16))
  else String.singleton c

/-- `JSON.stringify` of a string value, without the surrounding quotes. -/
def jsonEscape (s : String) : String :=
  String.join (s.data.map jsonEscapeChar)

/-- `JSON.stringify(c)` for a content block `{ type, text? }`: keys in
declaration order, an `undefined` `text` omitted. -/
def stringifyContentBlock (c : ContentBlock) : String :=
  match c.text with
  | none => "\x7b\"type\":\"" ++ jsonEscape c.type ++ "\"\x7d"
  | some t =>
      "\x7b\"type\":\"" ++ jsonEscape c.type ++ "\",\"text\":\"" ++ jsonEscape t ++ "\"\x7d"

/-- The success-path block mapping of the proxy handler:
`{ type: c.type as "text", text: c.text || JSON.stringify(c) }`.
JS string truthiness makes `c.text ||` fall through exactly when `text` is
absent or the empty string. -/
def passThroughBlock (c : ContentBlock) : ContentBlock :=
  { type := c.type,
    text := some (match c.text with
      | some t => if t = "" then stringifyContentBlock c else t
      | none => stringifyContentBlock c) }

/-- `result.content[0]?.text || "Unknown error"` in the handler's failure
branch: absent first block, absent `text`, and empty `text` all fall back. -/
def headTextOrUnknown (r : GitBookToolResult) : String :=
  match r.content.head? with
  | some c =>
      match c.text with
      | some t => if t = "" then "Unknown error" else t
      | none => "Unknown error"
  | none => "Unknown error"

/-- The wrapped text the proxy handler returns when the proxied call reports
failure. -/
def proxyFailureText (toolName : String) (r : GitBookToolResult) : String :=
  "⚠️ docs_" ++ toolName ++ " failed: " ++ headTextOrUnknown r ++
    "\n\nTry docs_refresh to reconnect, or visit https://docs.sodax.com directly."

/-- `const proxyToolName = \x60docs_${tool.name}\x60`. -/
def proxyToolName (tool : GitBookTool) : String :=
  "docs_" ++ tool.name

/-- The handler registered for one proxied tool: forwards the arguments to
`callGitBookTool` under the original remote name, wraps a failed result
(`result.isError` truthy) in the explanatory text, and otherwise maps the
content blocks through `passThroughBlock`, passing `isError` through. -/
def proxyToolHandler (toolName : String) (args : List (String × JsonVal))
    (callResp : UpstreamResult GitBookToolResult) : GitBookToolResult :=
  let result := callGitBookTool toolName args callResp
  if result.isError.getD false then
    { content := [⟨"text", some (proxyFailureText toolName result)⟩],
      isError := some true }
  else
    { content := result.content.map passThroughBlock, isError := result.isError }

/-- A server instance, reduced to what registration observes: the ordered
list of registered tool names. -/
structure ServerState where
  tools : List String
deriving Repr, DecidableEq

/-- A freshly constructed `McpServer`: no tools registered. -/
def initialServerState : ServerState := ⟨[]⟩

/-- `server.tool(name, …)` of the MCP SDK: throws
`Tool ${name} is already registered` on a duplicate name, else records the
tool. -/
def serverToolRegister (s : ServerState) (name : String) : Except String ServerState :=
  if s.tools.contains name then
    .error ("Tool " ++ name ++ " is already registered")
  else
    .ok ⟨s.tools ++ [name]⟩

/-- The three fixed meta-tool names. -/
def metaToolNames : List String := ["docs_health", "docs_refresh", "docs_list_tools"]

/-- `registerGitBookMetaTools(server)`: registers the three meta-tools in
order; a duplicate-registration error propagates (no `try` around it). -/
def registerGitBookMetaTools (s : ServerState) : Except String ServerState := do
  let s ← serverToolRegister s "docs_health"
  let s ← serverToolRegister s "docs_refresh"
  let s ← serverToolRegister s "docs_list_tools"
  pure s

/-- The module-global state of `src/tools/gitbookProxy.ts` together with the
service module's cache: `let metaToolsRegistered = false` lives at module
scope, shared by every server instance in the process. -/
structure ProxyGlobals where
  metaToolsRegistered : Bool
  cache : CacheState
deriving Repr, DecidableEq

/-- Process start: guard unset, cache empty. -/
def initialProxyGlobals : ProxyGlobals := ⟨false, initialCacheState⟩

/-- What one call of `registerGitBookProxyTools` leaves behind: the module
globals, the server instance it was passed, and the returned
`registeredCount`. -/
structure RegisterOutcome where
  globals : ProxyGlobals
  server : ServerState
  registeredCount : Nat
deriving Repr, DecidableEq

/-- `registerGitBookProxyTools(server)`.  Registers the meta-tools iff the
module-global guard is unset (an error there propagates — that code sits
before the `try`), then fetches the tool list and registers one
`docs_`-prefixed proxy per remote tool, each individual registration failure
caught and skipped (`catch (toolError)`).  Inside the outer `try` only the
per-tool registrations can raise and each is caught by the inner `try`, so
the outer `catch` is unreachable and the function only raises from the
meta-tool step. -/
def registerGitBookProxyTools (g : ProxyGlobals) (server : ServerState) (now : Nat)
    (listResp : UpstreamResult (Option (List GitBookTool))) :
    Except String RegisterOutcome := do
  let (metaFlag, server) ←
    if !g.metaToolsRegistered then
      match registerGitBookMetaTools server with
      | .ok s2 => pure (true, s2)
      | .error e => throw e
    else
      pure (g.metaToolsRegistered, server)
  let o := fetchGitBookTools g.cache now listResp
  if o.result.length = 0 then
    pure ⟨⟨metaFlag, o.state⟩, server, 0⟩
  else
    let folded := o.result.foldl (fun (acc : ServerState × Nat) tool =>
      match serverToolRegister acc.1 (proxyToolName tool) with
      | .ok s2 => (s2, acc.2 + 1)
      | .error _ => acc) (server, 0)
    pure ⟨⟨metaFlag, o.state⟩, folded.1, folded.2⟩

/-- How many of a server's registered tools are meta-tools. -/
def metaToolCount (s : ServerState) : Nat :=
  (s.tools.filter (fun n => metaToolNames.contains n)).length

/-- `getGitBookToolNames()`: the `docs_`-prefixed names of the fetched tools
followed by the three fixed names.  The surrounding `try/catch` falls back
to the three fixed names alone, but `fetchGitBookTools` is total, so the
`catch` is unreachable and is not part of the value. -/
def getGitBookToolNames (st : CacheState) (now : Nat)
    (listResp : UpstreamResult (Option (List GitBookTool))) :
    List String × CacheState :=
  let o := fetchGitBookTools st now listResp
  (o.result.map (fun t => "docs_" ++ t.name) ++ metaToolNames, o.state)

/-- The degraded message of the `docs_health` meta-tool handler. -/
def docsHealthDegradedText : String :=
  "⚠️ SDK Docs temporarily unavailable.\n\n**What you can do:**\n1. Try `docs_refresh` to reconnect\n2. Visit https://docs.sodax.com directly\n3. Use SODAX API tools (sodax_*) which work independently"

/-- The healthy message of the `docs_health` meta-tool handler. -/
def docsHealthHealthyText (toolCount : Nat) (tools : List GitBookTool) : String :=
  "✅ SDK Docs available. " ++
    (toString toolCount ++
      (" tools ready.\n\nExample tools: " ++
        (String.intercalate ", " ((tools.take 5).map (fun t => "docs_" ++ t.name)) ++
          ((if tools.length > 5 then "..." else "") ++
            "\n\nUse docs_list_tools for the full list, or call any docs_* tool directly."))))

/-- The `docs_health` meta-tool handler: awaits `checkGitBookHealth`, then
`fetchGitBookTools` (a second upstream interaction, hence the second
response argument), and branches on `health.healthy && tools.length > 0`. -/
def docsHealthHandler (st : CacheState) (now : Nat)
    (healthListResp toolsListResp : UpstreamResult (Option (List GitBookTool))) :
    GitBookToolResult × CacheState :=
  let health := (checkGitBookHealth st now healthListResp).1
  let st1 := (checkGitBookHealth st now healthListResp).2
  let o := fetchGitBookTools st1 now toolsListResp
  if health.healthy && decide (0 < o.result.length) then
    (⟨[⟨"text", some (docsHealthHealthyText health.toolCount o.result)⟩], none⟩, o.state)
  else
    (⟨[⟨"text", some docsHealthDegradedText⟩], none⟩, o.state)

/-! ## Shared helper lemmas -/

/-- A cache hit: a non-null cache younger than the TTL is returned as is,
with no upstream call and no state change. -/
theorem fetchGitBookTools_cache_fresh (st : CacheState) (now : Nat)
    (listResp : UpstreamResult (Option (List GitBookTool)))
    (hsome : st.cachedTools.isSome = true)
    (hfresh : now - st.toolsCacheTime < TOOLS_CACHE_DURATION) :
    fetchGitBookTools st now listResp = ⟨st.cachedTools.getD [], st, false⟩ := by
  unfold fetchGitBookTools
  simp [hsome, hfresh]

/-- Appending strings concatenates their character lists. -/
theorem stringDataAppend (s t : String) : (s ++ t).data = s.data ++ t.data := by
  cases s
  cases t
  rfl

/-- The first character of an append is the first character of a nonempty
left part. -/
theorem dataHeadOfAppend (s t : String) (h : s.data ≠ []) :
    (s ++ t).data.head? = s.data.head? := by
  rw [stringDataAppend]
  cases hs : s.data with
  | nil => exact absurd hs h
  | cons c cs => simp

/-- The healthy and the degraded `docs_health` message are never the same
string (they start with different characters). -/
theorem docsHealthHealthyText_ne_degraded (toolCount : Nat) (tools : List GitBookTool) :
    docsHealthHealthyText toolCount tools ≠ docsHealthDegradedText := by
  intro h
  have hd := congrArg (fun s => s.data.head?) h
  simp only at hd
  rw [docsHealthHealthyText] at hd
  rw [dataHeadOfAppend _ _ (by decide)] at hd
  have e1 : ("✅ SDK Docs available. " : String).data.head? = some '✅' := rfl
  have e2 : docsHealthDegradedText.data.head? = some '⚠' := rfl
  rw [e1, e2] at hd
  exact absurd hd (by decide)

/-! ## Claim theorems -/

/-- C2: `fetchGitBookTools` never throws (it is a total function into
`FetchOutcome`: the only raising step inside its `try` is `sendMcpRequest`
and the `catch` handles it), and when the upstream `tools/list` call fails
it returns the previously cached tool list if one exists and the empty list
otherwise, leaving the stored cache (tool list and timestamp) exactly as it
was — the old set is kept, never a half-updated one. -/
theorem fetchGitBookTools_failure_keeps_old_cache (st : CacheState) (now : Nat)
    (msg : String) :
    (fetchGitBookTools st now (.err msg)).result = st.cachedTools.getD [] ∧
    (fetchGitBookTools st now (.err msg)).state = st := by
  unfold fetchGitBookTools sendMcpRequest
  split
  · exact ⟨rfl, rfl⟩
  · exact ⟨rfl, rfl⟩

/-- C3: `callGitBookTool` never raises to its caller, for every tool name
and argument mapping: on transport or protocol failure of the `tools/call`
round trip it returns a result whose `isError` flag is set and whose content
is a single text block describing the error, and on success it returns the
remote result unchanged. -/
theorem callGitBookTool_flags_failure_never_raises (toolName : String)
    (args : List (String × JsonVal)) (callResp : UpstreamResult GitBookToolResult) :
    (∀ r, callResp = .ok r → callGitBookTool toolName args callResp = r) ∧
    (∀ m, callResp = .err m →
      callGitBookTool toolName args callResp =
        ⟨[⟨"text", some ("Error calling GitBook tool: " ++ m)⟩], some true⟩) := by
  constructor
  · intro r h
    subst h
    rfl
  · intro m h
    subst h
    rfl

/-- Witness for C3 at a concrete failing transport. -/
theorem callGitBookTool_flags_failure_never_raises_witness :
    callGitBookTool "searchDocumentation" [("query", JsonVal.str "swap")]
        (.err "timeout of 30000ms exceeded") =
      ⟨[⟨"text", some ("Error calling GitBook tool: " ++ "timeout of 30000ms exceeded")⟩],
        some true⟩ :=
  (callGitBookTool_flags_failure_never_raises "searchDocumentation"
    [("query", JsonVal.str "swap")] (.err "timeout of 30000ms exceeded")).2
    "timeout of 30000ms exceeded" rfl

/-- C6: if `fetchGitBookTools` is called twice and at the second call the
cache holds a tool list whose age is below the 600000 ms TTL, the second
call returns the cached list, changes nothing, and issues no upstream
`tools/list` request — two calls within the TTL window issue at most one
upstream call. -/
theorem fetchGitBookTools_second_call_within_ttl_cache_hit
    (st : CacheState) (now1 now2 : Nat)
    (r1 r2 : UpstreamResult (Option (List GitBookTool)))
    (hsome : ((fetchGitBookTools st now1 r1).state).cachedTools.isSome = true)
    (hfresh : now2 - ((fetchGitBookTools st now1 r1).state).toolsCacheTime
      < TOOLS_CACHE_DURATION) :
    (fetchGitBookTools (fetchGitBookTools st now1 r1).state now2 r2).upstreamCalled
        = false ∧
    (fetchGitBookTools (fetchGitBookTools st now1 r1).state now2 r2).result
        = ((fetchGitBookTools st now1 r1).state).cachedTools.getD [] ∧
    (fetchGitBookTools (fetchGitBookTools st now1 r1).state now2 r2).state
        = (fetchGitBookTools st now1 r1).state := by
  rw [fetchGitBookTools_cache_fresh _ _ _ hsome hfresh]
  exact ⟨rfl, rfl, rfl⟩

/-- Witness for C6: a successful fetch at t = 1000 ms, a second call at
t = 2000 ms against a now-failing upstream still serves from cache. -/
theorem fetchGitBookTools_second_call_within_ttl_cache_hit_witness :
    (fetchGitBookTools
        (fetchGitBookTools initialCacheState 1000
          (.ok (some [⟨"searchDocumentation", "Search the docs",
            ⟨"object", none, none⟩⟩]))).state 2000 (.err "down")).upstreamCalled
        = false ∧
    (fetchGitBookTools
        (fetchGitBookTools initialCacheState 1000
          (.ok (some [⟨"searchDocumentation", "Search the docs",
            ⟨"object", none, none⟩⟩]))).state 2000 (.err "down")).result
        = ((fetchGitBookTools initialCacheState 1000
            (.ok (some [⟨"searchDocumentation", "Search the docs",
              ⟨"object", none, none⟩⟩]))).state).cachedTools.getD [] ∧
    (fetchGitBookTools
        (fetchGitBookTools initialCacheState 1000
          (.ok (some [⟨"searchDocumentation", "Search the docs",
            ⟨"object", none, none⟩⟩]))).state 2000 (.err "down")).state
        = (fetchGitBookTools initialCacheState 1000
            (.ok (some [⟨"searchDocumentation", "Search the docs",
              ⟨"object", none, none⟩⟩]))).state :=
  fetchGitBookTools_second_call_within_ttl_cache_hit initialCacheState 1000 2000
    (.ok (some [⟨"searchDocumentation", "Search the docs", ⟨"object", none, none⟩⟩]))
    (.err "down") (by decide) (by decide)

/-- C7: `clearGitBookCache` clears the cache and the timestamp
unconditionally, so the next `fetchGitBookTools` call always issues a fresh
upstream `tools/list` request, no matter how recent the previous fetch
was. -/
theorem clearGitBookCache_forces_fresh_fetch (st : CacheState) (now : Nat)
    (listResp : UpstreamResult (Option (List GitBookTool))) :
    (clearGitBookCache st).cachedTools = none ∧
    (clearGitBookCache st).toolsCacheTime = 0 ∧
    (fetchGitBookTools (clearGitBookCache st) now listResp).upstreamCalled = true := by
  refine ⟨rfl, rfl, ?_⟩
  cases listResp <;> rfl

/-- The registration loop's shape accumulation (`shape[key] = fieldSchema`
in `Object.entries` order) is the element-wise translation. -/
theorem convertShape_foldl_eq_map (required : List String)
    (props : List (String × PropDef)) (init : List (String × FieldSchema)) :
    props.foldl (fun shape entry =>
      shape ++ [(entry.1,
        ({ kind := zodFieldOfType entry.2.type,
           optional := !(required.contains entry.1),
           description := entry.2.description } : FieldSchema))]) init
    = init ++ props.map (fun entry =>
        (entry.1,
         ({ kind := zodFieldOfType entry.2.type,
            optional := !(required.contains entry.1),
            description := entry.2.description } : FieldSchema))) := by
  induction props generalizing init with
  | nil => simp
  | cons x xs ih =>
    rw [List.foldl_cons, ih]
    simp only [List.map_cons]
    rw [List.append_assoc, List.singleton_append]

/-- The source translator agrees with the spec's field-by-field
translation on every input schema. -/
theorem convertToZodSchema_eq_specSchemaTranslation (inputSchema : InputSchema) :
    convertToZodSchema inputSchema = specSchemaTranslation inputSchema := by
  unfold convertToZodSchema specSchemaTranslation
  cases hp : inputSchema.properties with
  | none => rfl
  | some props =>
    by_cases h0 : props.length = 0
    · rw [List.length_eq_zero] at h0
      subst h0
      simp
    · simp only [h0, if_false, Option.getD_some]
      exact convertShape_foldl_eq_map (inputSchema.required.getD []) props []

/-- C5: `convertToZodSchema` is total (a function of the whole input schema
type) and equals the reference translation of spec §4.3 on every input:
each declared field maps to exactly one of the five validator kinds — with
both `"number"` and `"integer"` going to the number validator and any
undeclared or unknown type to the unconstrained validator — and an empty or
missing `properties` map yields a validator declaring no fields and
accepting the empty argument object. -/
theorem convertToZodSchema_total_and_eq_spec (inputSchema : InputSchema) :
    convertToZodSchema inputSchema = specSchemaTranslation inputSchema ∧
    ((inputSchema.properties = none ∨ inputSchema.properties = some []) →
      convertToZodSchema inputSchema = [] ∧
      validateArgs (convertToZodSchema inputSchema) [] = true) := by
  refine ⟨convertToZodSchema_eq_specSchemaTranslation inputSchema, ?_⟩
  intro h
  have hempty : convertToZodSchema inputSchema = [] := by
    unfold convertToZodSchema
    rcases h with h | h <;> rw [h]
    rfl
  refine ⟨hempty, ?_⟩
  rw [hempty]
  rfl

/-- Witness for C5 at a schema with missing `properties`. -/
theorem convertToZodSchema_total_and_eq_spec_witness :
    convertToZodSchema ⟨"object", none, none⟩ = [] ∧
    validateArgs (convertToZodSchema ⟨"object", none, none⟩) [] = true :=
  (convertToZodSchema_total_and_eq_spec ⟨"object", none, none⟩).2 (Or.inl rfl)

/-- A successful association-list lookup exhibits a member. -/
theorem mem_of_lookup_some {α β : Type} [BEq α] [LawfulBEq α]
    (l : List (α × β)) (k : α) (v : β) (h : l.lookup k = some v) : (k, v) ∈ l := by
  induction l with
  | nil => simp [List.lookup] at h
  | cons x xs ih =>
    rcases x with ⟨a, b⟩
    cases hk : (k == a) with
    | true =>
      simp only [List.lookup, hk] at h
      have ha : k = a := eq_of_beq hk
      cases h
      rw [ha]
      exact List.mem_cons_self _ _
    | false =>
      simp only [List.lookup, hk] at h
      exact List.mem_cons_of_mem _ (ih h)

/-- A field found in the translated shape carries `optional` exactly when
its key is not in the schema's `required` list. -/
theorem specShape_optional_eq (inputSchema : InputSchema) (k : String)
    (fs : FieldSchema)
    (h : (specSchemaTranslation inputSchema).lookup k = some fs) :
    fs.optional = !((inputSchema.required.getD []).contains k) := by
  have hmem := mem_of_lookup_some _ _ _ h
  unfold specSchemaTranslation at hmem
  rcases List.mem_map.mp hmem with ⟨entry, _, heq⟩
  obtain ⟨hk, hfs⟩ := Prod.mk.injEq _ _ _ _ |>.mp heq
  subst hk
  subst hfs
  rfl

/-- One failing field of the shape makes the whole argument object fail
validation. -/
theorem validateArgs_false_of_mem (shape : List (String × FieldSchema))
    (args : List (String × JsonVal)) (k : String) (fs : FieldSchema)
    (hmem : (k, fs) ∈ shape) (hbad : validateField fs (args.lookup k) = false) :
    validateArgs shape args = false := by
  cases hall : validateArgs shape args with
  | false => rfl
  | true =>
    exfalso
    have hfield : validateField fs (args.lookup k) = true :=
      List.all_eq_true.mp hall (k, fs) hmem
    rw [hbad] at hfield
    exact absurd hfield (by decide)

/-- C4 counterexample: in the schema
`{ properties: { q: { type: "foo" } }, required: ["q"] }` the field `q` is
declared and listed in `required`, its unrecognized type degrades to
`z.unknown()`, and `z.unknown()` accepts a missing key — so the translated
validator accepts the empty argument object although `q` is required,
refuting the claim as stated. -/
theorem required_unknown_field_omission_accepted :
    "q" ∈ ((⟨"object", some [("q", ⟨some "foo", none⟩)], some ["q"]⟩ :
        InputSchema)).required.getD [] ∧
    (convertToZodSchema
        ⟨"object", some [("q", ⟨some "foo", none⟩)], some ["q"]⟩).lookup "q"
      = some ⟨ZodField.zunknown, false, none⟩ ∧
    validateArgs
        (convertToZodSchema ⟨"object", some [("q", ⟨some "foo", none⟩)], some ["q"]⟩)
        [] = true := by
  refine ⟨by decide, by decide, by decide⟩

/-- C4 (amended): for every input schema and every field found in the
translated shape: if the field is listed in `required` and its validator
kind is not the unconstrained `z.unknown()` one, omitting it from the
arguments makes validation fail; if its type is unknown the `z.unknown()`
validator accepts omission even when required; and if it is not listed in
`required` its validator accepts omission. -/
theorem convertToZodSchema_required_omission_validation (inputSchema : InputSchema)
    (k : String) (fs : FieldSchema) (args : List (String × JsonVal))
    (hlook : (convertToZodSchema inputSchema).lookup k = some fs) :
    (k ∈ inputSchema.required.getD [] → fs.kind ≠ ZodField.zunknown →
      args.lookup k = none →
      validateArgs (convertToZodSchema inputSchema) args = false) ∧
    (fs.kind = ZodField.zunknown → validateField fs none = true) ∧
    (k ∉ inputSchema.required.getD [] → validateField fs none = true) := by
  rw [convertToZodSchema_eq_specSchemaTranslation] at hlook
  have hopt := specShape_optional_eq inputSchema k fs hlook
  have hmem := mem_of_lookup_some _ _ _ hlook
  refine ⟨?_, ?_, ?_⟩
  · intro hreq hkind habsent
    have hoptf : fs.optional = false := by
      rw [hopt]
      simp [hreq]
    have hmiss : acceptsMissing fs.kind = false := by
      cases hfk : fs.kind
      case zunknown => exact absurd hfk hkind
      all_goals rfl
    have hbad : validateField fs (args.lookup k) = false := by
      rw [habsent]
      simp [validateField, hoptf, hmiss]
    rw [convertToZodSchema_eq_specSchemaTranslation]
    exact validateArgs_false_of_mem _ _ k fs hmem hbad
  · intro hkind
    simp [validateField, hkind, acceptsMissing]
  · intro hreq
    have hoptt : fs.optional = true := by
      rw [hopt]
      simp [hreq]
    simp [validateField, hoptt]

/-- Witness for C4 (amended) on a schema with a required string field:
omitting `query` is rejected. -/
theorem convertToZodSchema_required_omission_validation_witness :
    validateArgs
        (convertToZodSchema
          ⟨"object", some [("query", ⟨some "string", none⟩)], some ["query"]⟩)
        [] = false :=
  (convertToZodSchema_required_omission_validation
      ⟨"object", some [("query", ⟨some "string", none⟩)], some ["query"]⟩
      "query" ⟨ZodField.zstring, false, none⟩ [] (by decide)).1
    (by decide) (by decide) rfl

/-- C8 counterexample: a successful remote result (`isError` unset) whose
single content block has no `text` field is **not** passed through
unchanged — the handler's mapping substitutes the block's JSON
serialization for the missing text. -/
theorem proxyHandler_success_blocks_changed :
    (callGitBookTool "searchDocumentation" []
        (.ok ⟨[⟨"text", none⟩], none⟩)).isError.getD false = false ∧
    (proxyToolHandler "searchDocumentation" []
        (.ok ⟨[⟨"text", none⟩], none⟩)).content ≠
      (callGitBookTool "searchDocumentation" []
        (.ok ⟨[⟨"text", none⟩], none⟩)).content := by
  exact ⟨rfl, by decide⟩

/-- C8 (amended): the proxy tool is registered under the `docs_`-prefixed
remote name and its handler forwards the arguments to `callGitBookTool`
under the original remote name; when the result's failure flag is set the
handler returns a single wrapped text block suggesting `docs_refresh` and
the fallback URL; when the call succeeds it returns the result's blocks
with the same types in order, each block's text kept when it is a nonempty
string and otherwise replaced by the block's JSON serialization, with the
failure flag passed through. -/
theorem proxyTool_registration_and_handler (tool : GitBookTool)
    (args : List (String × JsonVal)) (callResp : UpstreamResult GitBookToolResult) :
    proxyToolName tool = "docs_" ++ tool.name ∧
    ((callGitBookTool tool.name args callResp).isError.getD false = true →
      proxyToolHandler tool.name args callResp =
        ⟨[⟨"text",
            some (proxyFailureText tool.name (callGitBookTool tool.name args callResp))⟩],
          some true⟩) ∧
    ((callGitBookTool tool.name args callResp).isError.getD false = false →
      proxyToolHandler tool.name args callResp =
        ⟨(callGitBookTool tool.name args callResp).content.map passThroughBlock,
          (callGitBookTool tool.name args callResp).isError⟩) := by
  refine ⟨rfl, ?_, ?_⟩
  · intro h
    simp [proxyToolHandler, h]
  · intro h
    simp [proxyToolHandler, h]

/-- Witness for C8 (amended): a successful call with a plain text block
passes through. -/
theorem proxyTool_registration_and_handler_witness :
    proxyToolHandler "searchDocumentation" [("query", JsonVal.str "swap")]
        (.ok ⟨[⟨"text", some "result text"⟩], none⟩) =
      ⟨(callGitBookTool "searchDocumentation" [("query", JsonVal.str "swap")]
          (.ok ⟨[⟨"text", some "result text"⟩], none⟩)).content.map passThroughBlock,
        (callGitBookTool "searchDocumentation" [("query", JsonVal.str "swap")]
          (.ok ⟨[⟨"text", some "result text"⟩], none⟩)).isError⟩ :=
  (proxyTool_registration_and_handler
      ⟨"searchDocumentation", "Search the docs", ⟨"object", none, none⟩⟩
      [("query", JsonVal.str "swap")]
      (.ok ⟨[⟨"text", some "result text"⟩], none⟩)).2.2 rfl

/-- C9: `getGitBookToolNames` always returns the `docs_`-prefixed name of
every tool the fetch yields (the currently cached set) followed by the
three fixed names, and degrades to exactly the three fixed names when the
upstream fetch fails and nothing is cached. -/
theorem getGitBookToolNames_prefixed_and_meta (st : CacheState) (now : Nat)
    (listResp : UpstreamResult (Option (List GitBookTool))) :
    (getGitBookToolNames st now listResp).1
      = (fetchGitBookTools st now listResp).result.map (fun t => "docs_" ++ t.name)
          ++ ["docs_health", "docs_refresh", "docs_list_tools"] ∧
    (st.cachedTools = none → ∀ m, listResp = .err m →
      (getGitBookToolNames st now listResp).1
        = ["docs_health", "docs_refresh", "docs_list_tools"]) := by
  refine ⟨rfl, ?_⟩
  intro hnone m hresp
  subst hresp
  unfold getGitBookToolNames fetchGitBookTools
  rw [hnone]
  rfl

/-- Witness for C9: cold cache and failing upstream yield exactly the three
meta-tool names. -/
theorem getGitBookToolNames_prefixed_and_meta_witness :
    (getGitBookToolNames initialCacheState 0 (.err "connect ECONNREFUSED")).1
      = ["docs_health", "docs_refresh", "docs_list_tools"] :=
  (getGitBookToolNames_prefixed_and_meta initialCacheState 0
    (.err "connect ECONNREFUSED")).2 rfl "connect ECONNREFUSED" rfl

/-- C10: `checkGitBookHealth` never reports `healthy: false` — its `catch`
branch is unreachable because `fetchGitBookTools` handles every failure
internally — so the only degradation signal the `docs_health` handler can
emit is driven by the tool count being zero, never by the healthy flag. -/
theorem checkGitBookHealth_never_unhealthy (st : CacheState) (now : Nat)
    (r1 r2 : UpstreamResult (Option (List GitBookTool))) :
    (checkGitBookHealth st now r1).1.healthy = true ∧
    ((docsHealthHandler st now r1 r2).1.content
        = [⟨"text", some docsHealthDegradedText⟩]
      ↔ (fetchGitBookTools (checkGitBookHealth st now r1).2 now r2).result.length
          = 0) := by
  refine ⟨rfl, ?_⟩
  rcases Nat.eq_zero_or_pos
      (fetchGitBookTools (checkGitBookHealth st now r1).2 now r2).result.length
    with hlen | hlen
  · have hcond : ((checkGitBookHealth st now r1).1.healthy &&
        decide (0 < (fetchGitBookTools
          (checkGitBookHealth st now r1).2 now r2).result.length)) = false := by
      rw [hlen]
      simp
    constructor
    · intro _
      exact hlen
    · intro _
      simp [docsHealthHandler, hcond]
  · have hcond : ((checkGitBookHealth st now r1).1.healthy &&
        decide (0 < (fetchGitBookTools
          (checkGitBookHealth st now r1).2 now r2).result.length)) = true := by
      rw [show (checkGitBookHealth st now r1).1.healthy = true from rfl]
      simpa using hlen
    constructor
    · intro hcontent
      have hhealthy : (docsHealthHandler st now r1 r2).1.content
          = [⟨"text", some (docsHealthHealthyText
              (checkGitBookHealth st now r1).1.toolCount
              (fetchGitBookTools (checkGitBookHealth st now r1).2 now r2).result)⟩] := by
        simp [docsHealthHandler, hcond]
      rw [hhealthy] at hcontent
      injection hcontent with hhead _
      injection hhead with _ htext
      injection htext with hstr
      exact absurd hstr (docsHealthHealthyText_ne_degraded _ _)
    · intro hlen0
      rw [hlen0] at hlen
      exact absurd hlen (lt_irrefl 0)

/-- C1, evaluated at the failing scenario: the `metaToolsRegistered` guard
is module-global, not per server instance.  First call on a fresh first
server instance registers the three meta-tools and sets the guard; a second
call on the *same* instance is indeed idempotent (no duplicate-registration
error, still exactly 3 meta-tool entries); but the first call on a *fresh
second* server instance — as happens on every further HTTP request, since
`createServer` runs per request — registers nothing at all: the second
instance ends with 0 meta-tools, contradicting the claim (and the source's
own comment "only once per server instance"). -/
theorem metaTools_skipped_on_second_server_instance :
    registerGitBookProxyTools initialProxyGlobals initialServerState 0
        (.err "connect ECONNREFUSED")
      = .ok ⟨⟨true, initialCacheState⟩, ⟨metaToolNames⟩, 0⟩ ∧
    registerGitBookProxyTools ⟨true, initialCacheState⟩ ⟨metaToolNames⟩ 0
        (.err "connect ECONNREFUSED")
      = .ok ⟨⟨true, initialCacheState⟩, ⟨metaToolNames⟩, 0⟩ ∧
    registerGitBookProxyTools ⟨true, initialCacheState⟩ initialServerState 0
        (.err "connect ECONNREFUSED")
      = .ok ⟨⟨true, initialCacheState⟩, initialServerState, 0⟩ ∧
    metaToolCount ⟨metaToolNames⟩ = 3 ∧
    metaToolCount initialServerState = 0 :=
  ⟨rfl, rfl, rfl, rfl, rfl⟩
